import Mathlib

/-!
Shallow embedding of the telegram-yt-bot acquisition-and-delivery pipeline.

The repository has two pipeline implementations:
  * `src/main.py` — polling bot: a single global scratch directory
    `/tmp/downloads` (`DOWNLOAD_DIR`), `download_video_sync` /
    `download_audio_sync` wrappers around yt-dlp, `find_downloaded_file`
    resolution by newest mtime, `process_video_download` /
    `process_audio_download` handlers with a 720 → 480 fallback ladder and a
    `finally: cleanup_download_dir()` on every exit.
  * `src/bot.py` — webhook bot: `button_click` drives
    `get_video_info` → `tempfile.TemporaryDirectory()` → `download_media` →
    size check → upload.

External effects (Telegram calls, yt-dlp invocations, the filesystem) are
modelled by environment records supplying each call's outcome; exceptions a
call may raise are modelled by Boolean outcome fields, and Python
`try/except/finally` by the explicit control flow of the definitions below.
String prefix/suffix tests are modelled on the character lists underlying
`String` so that every definition evaluates by `decide`/`rfl`.
-/

namespace YtBot

/-- `MAX_FILE_SIZE_MB = 50` (src/main.py line 29). -/
def MAX_FILE_SIZE_MB : Nat := 50

/-- `MAX_FILE_SIZE_BYTES = MAX_FILE_SIZE_MB * 1024 * 1024` (src/main.py line 30). -/
def MAX_FILE_SIZE_BYTES : Nat := MAX_FILE_SIZE_MB * 1024 * 1024

/-- `DOWNLOAD_DIR = Path("/tmp/downloads")` (src/main.py line 28), a module
level constant: the same directory object for every request. -/
def DOWNLOAD_DIR : String := "/tmp/downloads"

/-- The scratch path a main.py job works in: `process_video_download` and
`process_audio_download` always pass the module-level `DOWNLOAD_DIR` to the
download functions, whatever the job is. -/
def mainWorkspacePath (_jobId : Nat) : String := DOWNLOAD_DIR

/-- A file of the scratch directory: its name, byte size (`stat().st_size`)
and modification time (`stat().st_mtime`). -/
structure FSFile where
  name : String
  size : Nat
  mtime : Nat
deriving DecidableEq, Repr

/-- String suffix test (`str.endswith` / what `glob('*.ext')` matches),
modelled on the underlying character list. -/
def strEndsWith (s suf : String) : Bool := suf.data.isSuffixOf s.data

/-- String prefix test (`str.startswith`), modelled on the underlying
character list. -/
def strStartsWith (s pre : String) : Bool := pre.data.isPrefixOf s.data

/-- Whether `directory.glob(f'*.{ext}')` matches the file: its name ends in
`.ext` (src/main.py line 76). -/
def hasExt (f : FSFile) (ext : String) : Bool := strEndsWith f.name ("." ++ ext)

/-- The list built by the loop of `find_downloaded_file` (src/main.py lines
74-76): for each extension in order, append the files matching it. -/
def matchedFiles (files : List FSFile) (extensions : List String) : List FSFile :=
  extensions.foldl (fun acc ext => acc ++ files.filter (fun f => hasExt f ext)) []

/-- Python `max(files, key=lambda f: f.stat().st_mtime)` on a list, `none` on
an empty list: the first element of greatest mtime (Python `max` keeps the
current maximum on ties). -/
def pyMaxByMtime : List FSFile → Option FSFile
  | [] => none
  | f :: fs => some (fs.foldl (fun best g => if best.mtime < g.mtime then g else best) f)

/-- `find_downloaded_file` (src/main.py lines 72-81): collect files matching
the given extensions, return `None` when there are none, else the one with
the greatest modification time. -/
def find_downloaded_file (files : List FSFile) (extensions : List String) : Option FSFile :=
  pyMaxByMtime (matchedFiles files extensions)

/-- `cleanup_download_dir` (src/main.py lines 62-70): unlink every file in
the download directory — whatever job created it. -/
def cleanup_download_dir (_files : List FSFile) : List FSFile := []

/-- The size guard of both pipelines: `file_size > MAX_FILE_SIZE_BYTES`
(src/main.py lines 279, 387; the same constant `50 * 1024 * 1024` at
src/bot.py line 244). `true` means the artifact is rejected. -/
def size_exceeds_limit (n : Nat) : Bool := MAX_FILE_SIZE_BYTES < n

/-- Video extensions searched by `process_video_download`
(src/main.py lines 265, 294). -/
def videoExtensions : List String := ["mp4", "mkv", "webm", "mov"]

/-- Audio extensions searched by `process_audio_download`
(src/main.py line 375). -/
def audioExtensions : List String := ["mp3", "m4a", "opus", "webm", "wav", "ogg"]

/-- The metadata record of a download (`info` dict as the pipelines read it:
`info.get('title')`, `info.get('duration')`). -/
structure Info where
  title : String
  duration : Nat
deriving DecidableEq, Repr

/-- Outcome of one `ydl.extract_info(url, download=True)` call as the
`download_*_sync` wrappers see it: a result dict, or a raised
`yt_dlp.utils.DownloadError`, or any other raised exception. -/
inductive AttemptOutcome where
  | ok (info : Info)
  | raiseDl (msg : String)
  | raiseOther (msg : String)
deriving DecidableEq, Repr

/-- Whether the attempt raised (did not return an info dict). -/
def attemptFails : AttemptOutcome → Bool
  | .ok _ => false
  | .raiseDl _ => true
  | .raiseOther _ => true

/-- `download_video_sync` (src/main.py lines 83-117): one yt-dlp invocation;
a raised `DownloadError` is caught and returned as
`(None, "Download error: " + str(e)[:200])`, any other exception as
`(None, "Error: " + str(e)[:200])`; success returns `(info, None)`. -/
def download_video_sync (o : AttemptOutcome) : Option Info × Option String :=
  match o with
  | .ok i => (some i, none)
  | .raiseDl m => (none, some ("Download error: " ++ m.take 200))
  | .raiseOther m => (none, some ("Error: " ++ m.take 200))

/-- `download_audio_sync` (src/main.py lines 119-174): first try the
FFmpeg-postprocessing options; any exception there is only logged and the
no-FFmpeg fallback options are tried; the fallback's exceptions are caught
and returned as an error message, its success as `(info, None)`. -/
def download_audio_sync (o1 o2 : AttemptOutcome) : Option Info × Option String :=
  match o1 with
  | .ok i => (some i, none)
  | .raiseDl _ | .raiseOther _ =>
    match o2 with
    | .ok i => (some i, none)
    | .raiseDl m => (none, some ("Download error: " ++ m.take 200))
    | .raiseOther m => (none, some ("Error: " ++ m.take 200))

/-- How many `yt_dlp.YoutubeDL(...).extract_info` invocations
`download_audio_sync` performs: one when the FFmpeg path returns, two when it
raised and the fallback ran. -/
def download_audio_sync_attempts (o1 _o2 : AttemptOutcome) : Nat :=
  match o1 with
  | .ok _ => 1
  | .raiseDl _ | .raiseOther _ => 2

/-- What one `download_*_sync` call leaves behind, as the async pipeline sees
it: the returned `(info, error)` tuple and the files then present in
`DOWNLOAD_DIR` (the directory was emptied just before the call). -/
structure DlReturn where
  info : Option Info
  error : Option String
  files : List FSFile

/-- Outcome of the `reply_video` / `reply_audio` upload call:
returned, raised `TimedOut`, raised `NetworkError`, or raised some other
exception (handled only by the outer `except Exception`). -/
inductive UploadOutcome where
  | ok
  | timedOut
  | networkError (msg : String)
  | raiseOther
deriving DecidableEq, Repr

/-- Environment of one `process_video_download` run: `tgFail k` says whether
the Telegram call at site `k` raises (site numbering follows source order:
0 `reply_text`, 1 `send_action`, 2 edit "Downloading (720p)", 3 edit of a
download error, 4 edit "no video info", 5 edit "file not found", 6 edit
"trying 480p", 7 edit of the second download error, 8 edit "too large",
9 edit "Uploading", 10 `send_action`, 11 `status_message.delete`, 12 edit
after `TimedOut`, 13 edit after `NetworkError`); `d720`/`d480` the outcomes
of the two possible `download_video_sync` calls; `upload` the `reply_video`
outcome. -/
structure VideoEnv where
  tgFail : Nat → Bool
  d720 : DlReturn
  d480 : DlReturn
  upload : UploadOutcome

/-- Terminal state of a `process_video_download` run, by exit site. -/
inductive VideoResult where
  | raisedBeforeTry
  | dlError (msg : String)
  | noInfo
  | fileNotFound
  | tooLarge
  | delivered
  | uploadTimedOut
  | uploadNetworkError (msg : String)
  | internalError
deriving DecidableEq, Repr

/-- Result of a `process_video_download` run: terminal state, the files left
in `DOWNLOAD_DIR`, and the `max_height` argument of each
`download_video_sync` invocation performed, in order. -/
structure VideoOut where
  result : VideoResult
  files : List FSFile
  attemptHeights : List Nat
deriving Repr

/-- The upload stage of `process_video_download` (src/main.py lines 306-334):
edit "Uploading", `send_action`, read `info.get('title')` (raising
`AttributeError` when `info` is `None` — the second download's info is never
checked), then `reply_video` with its `TimedOut` / `NetworkError` handlers.
Every exit passes through `finally: cleanup_download_dir()`. -/
def video_upload_stage (env : VideoEnv) (info : Option Info) (cur : List FSFile)
    (heights : List Nat) : VideoOut :=
  if env.tgFail 9 then ⟨.internalError, cleanup_download_dir cur, heights⟩
  else if env.tgFail 10 then ⟨.internalError, cleanup_download_dir cur, heights⟩
  else
    match info with
    | none => ⟨.internalError, cleanup_download_dir cur, heights⟩
    | some _ =>
      match env.upload with
      | .ok =>
        ⟨if env.tgFail 11 then .internalError else .delivered,
          cleanup_download_dir cur, heights⟩
      | .timedOut =>
        ⟨if env.tgFail 12 then .internalError else .uploadTimedOut,
          cleanup_download_dir cur, heights⟩
      | .networkError m =>
        ⟨if env.tgFail 13 then .internalError else .uploadNetworkError m,
          cleanup_download_dir cur, heights⟩
      | .raiseOther => ⟨.internalError, cleanup_download_dir cur, heights⟩

/-- `process_video_download` (src/main.py lines 237-345) over an initial
directory content `init`. The first `reply_text` happens before the `try`,
so its exception propagates with nothing cleaned; every later exit — error
return, exception caught by `except Exception`, or success — runs
`cleanup_download_dir` in the `finally`. On a too-large 720p artifact the
directory is cleaned and `download_video_sync(url, DOWNLOAD_DIR, 480)` is
run; a missing or still too large 480p artifact is the terminal "Video too
large" exit. -/
def process_video_download (env : VideoEnv) (init : List FSFile) : VideoOut :=
  if env.tgFail 0 then ⟨.raisedBeforeTry, init, []⟩
  else if env.tgFail 1 then ⟨.internalError, cleanup_download_dir init, []⟩
  else if env.tgFail 2 then ⟨.internalError, cleanup_download_dir [], []⟩
  else
    match env.d720.error with
    | some m =>
      ⟨if env.tgFail 3 then .internalError else .dlError m,
        cleanup_download_dir env.d720.files, [720]⟩
    | none =>
      match env.d720.info with
      | none =>
        ⟨if env.tgFail 4 then .internalError else .noInfo,
          cleanup_download_dir env.d720.files, [720]⟩
      | some i =>
        match find_downloaded_file env.d720.files videoExtensions with
        | none =>
          ⟨if env.tgFail 5 then .internalError else .fileNotFound,
            cleanup_download_dir env.d720.files, [720]⟩
        | some vf =>
          if size_exceeds_limit vf.size then
            if env.tgFail 6 then ⟨.internalError, cleanup_download_dir [], [720]⟩
            else
              match env.d480.error with
              | some m =>
                ⟨if env.tgFail 7 then .internalError else .dlError m,
                  cleanup_download_dir env.d480.files, [720, 480]⟩
              | none =>
                match find_downloaded_file env.d480.files videoExtensions with
                | none =>
                  ⟨if env.tgFail 8 then .internalError else .tooLarge,
                    cleanup_download_dir env.d480.files, [720, 480]⟩
                | some vf2 =>
                  if size_exceeds_limit vf2.size then
                    ⟨if env.tgFail 8 then .internalError else .tooLarge,
                      cleanup_download_dir env.d480.files, [720, 480]⟩
                  else video_upload_stage env env.d480.info env.d480.files [720, 480]
          else video_upload_stage env (some i) env.d720.files [720]

/-- Environment of one `process_audio_download` run; site numbering:
0 `reply_text`, 1 `send_action`, 2 edit "Downloading audio", 3 edit of a
download error, 4 edit "Download failed", 5 edit "file not found", 6 edit
"Audio too large", 7 edit "Uploading", 8 `send_action`, 9 `delete`, 10 edit
after `TimedOut`, 11 edit after `NetworkError`. -/
structure AudioEnv where
  tgFail : Nat → Bool
  dl : DlReturn
  upload : UploadOutcome

/-- Terminal state of a `process_audio_download` run. -/
inductive AudioResult where
  | raisedBeforeTry
  | dlError (msg : String)
  | noInfo
  | fileNotFound
  | tooLarge
  | delivered
  | uploadTimedOut
  | uploadNetworkError (msg : String)
  | internalError
deriving DecidableEq, Repr

/-- Result of a `process_audio_download` run: terminal state, files left in
`DOWNLOAD_DIR`, number of `download_audio_sync` invocations performed. -/
structure AudioOut where
  result : AudioResult
  files : List FSFile
  attempts : Nat
deriving Repr

/-- `process_audio_download` (src/main.py lines 347-427): one
`download_audio_sync` call, `find_downloaded_file` over the audio
extensions, the size guard — whose rejection is a terminal "Audio too large"
exit, with no second download — then upload; `finally:
cleanup_download_dir()` on every exit after the initial `reply_text`. -/
def process_audio_download (env : AudioEnv) (init : List FSFile) : AudioOut :=
  if env.tgFail 0 then ⟨.raisedBeforeTry, init, 0⟩
  else if env.tgFail 1 then ⟨.internalError, cleanup_download_dir init, 0⟩
  else if env.tgFail 2 then ⟨.internalError, cleanup_download_dir [], 0⟩
  else
    match env.dl.error with
    | some m =>
      ⟨if env.tgFail 3 then .internalError else .dlError m,
        cleanup_download_dir env.dl.files, 1⟩
    | none =>
      match env.dl.info with
      | none =>
        ⟨if env.tgFail 4 then .internalError else .noInfo,
          cleanup_download_dir env.dl.files, 1⟩
      | some _ =>
        match find_downloaded_file env.dl.files audioExtensions with
        | none =>
          ⟨if env.tgFail 5 then .internalError else .fileNotFound,
            cleanup_download_dir env.dl.files, 1⟩
        | some af =>
          if size_exceeds_limit af.size then
            ⟨if env.tgFail 6 then .internalError else .tooLarge,
              cleanup_download_dir env.dl.files, 1⟩
          else if env.tgFail 7 then ⟨.internalError, cleanup_download_dir env.dl.files, 1⟩
          else if env.tgFail 8 then ⟨.internalError, cleanup_download_dir env.dl.files, 1⟩
          else
            match env.upload with
            | .ok =>
              ⟨if env.tgFail 9 then .internalError else .delivered,
                cleanup_download_dir env.dl.files, 1⟩
            | .timedOut =>
              ⟨if env.tgFail 10 then .internalError else .uploadTimedOut,
                cleanup_download_dir env.dl.files, 1⟩
            | .networkError m =>
              ⟨if env.tgFail 11 then .internalError else .uploadNetworkError m,
                cleanup_download_dir env.dl.files, 1⟩
            | .raiseOther => ⟨.internalError, cleanup_download_dir env.dl.files, 1⟩

/-! ## The webhook bot (src/bot.py) -/

/-- Split a character list at the first colon, `none` when there is none:
`query.data.split(":", 1)` unpacked into two variables, whose failure is the
`ValueError` caught at src/bot.py lines 211-215. -/
def splitFirstColon : List Char → Option (List Char × List Char)
  | [] => none
  | c :: cs =>
    if c = ':' then some ([], cs)
    else
      match splitFirstColon cs with
      | none => none
      | some (a, b) => some (c :: a, b)

/-- `data_type, video_id = query.data.split(":", 1)` (src/bot.py line 212):
the part before the first colon and the part after it, `none` when the data
has no colon (the `ValueError` branch). -/
def parse_callback_data (s : String) : Option (String × String) :=
  match splitFirstColon s.data with
  | none => none
  | some (a, b) => some (⟨a⟩, ⟨b⟩)

/-- `context.user_data.get(video_id)` (src/bot.py line 217) over the stored
link map, modelled as an association list. -/
def lookupUserData (ud : List (String × String)) (k : String) : Option String :=
  match ud.find? (fun p => p.1 = k) with
  | none => none
  | some p => some p.2

/-- The metadata record `get_video_info` may produce (src/bot.py lines
52-82): that function returns `None` on any extraction failure — private,
restricted, not found, network — having caught every exception. -/
structure BotInfo where
  title : String
  duration : Nat
  width : Nat
  height : Nat
deriving DecidableEq, Repr

/-- The artifact-resolution step at the end of `download_media` (src/bot.py
lines 144-153): if a file named `finalName` exists, take it; otherwise take
the FIRST directory entry (in `os.listdir` order) whose name starts with
`video_id` and ends with `.mp3` or `.mp4` (it is renamed to `finalName`, so
the delivered bytes are that entry's); `none` when neither exists. -/
def download_media_resolve (files : List FSFile) (videoId : String)
    (finalName : String) : Option FSFile :=
  match files.find? (fun f => f.name = finalName) with
  | some f => some f
  | none =>
    files.find? (fun f =>
      strStartsWith f.name videoId &&
        (strEndsWith f.name ".mp3" || strEndsWith f.name ".mp4"))

/-- Terminal state of a `button_click` run. -/
inductive BotResult where
  | invalidCallback
  | forgottenLink
  | infoFailed
  | downloadFailed
  | tooLarge
  | delivered
  | internalError
deriving DecidableEq, Repr

/-- Environment of one `button_click` run: the stored link map, the
`get_video_info` outcome, the `download_media` outcome (`some size` — a
final file of that byte size — or `None`), and the upload outcome. Telegram
status edits are modelled as returning normally; their failure aborts the
handler without changing which downloads ran. -/
structure BotEnv where
  userData : List (String × String)
  metadata : Option BotInfo
  downloadResult : Option Nat
  upload : UploadOutcome

/-- Result of a `button_click` run: terminal state, whether the submission
was accepted (it passed the callback-parse and stored-link guards and the
"Processing..." pipeline began), how many `download_media` invocations ran,
and the link map afterwards (`button_click` never writes `user_data`). -/
structure BotOut where
  result : BotResult
  accepted : Bool
  downloadCalls : Nat
  userDataAfter : List (String × String)
deriving Repr

/-- `button_click` (src/bot.py lines 206-281): parse the callback data
(malformed → "Invalid callback data"), look the `video_id` up in `user_data`
(missing → "I've forgotten that link") — the only two rejection paths, and
neither removes nor marks the stored link — then `get_video_info` (`None` →
"Could not get video information", before any download), then inside a fresh
`TemporaryDirectory` one `download_media` call, the 50 MiB size guard, and
the upload, whose exceptions the generic `except Exception` turns into "An
unexpected error occurred". -/
def button_click (env : BotEnv) (data : String) : BotOut :=
  match parse_callback_data data with
  | none => ⟨.invalidCallback, false, 0, env.userData⟩
  | some (_dataType, videoId) =>
    match lookupUserData env.userData videoId with
    | none => ⟨.forgottenLink, false, 0, env.userData⟩
    | some _url =>
      match env.metadata with
      | none => ⟨.infoFailed, true, 0, env.userData⟩
      | some _info =>
        match env.downloadResult with
        | none => ⟨.downloadFailed, true, 1, env.userData⟩
        | some sz =>
          if 50 * 1024 * 1024 < sz then ⟨.tooLarge, true, 1, env.userData⟩
          else
            match env.upload with
            | .ok => ⟨.delivered, true, 1, env.userData⟩
            | .timedOut => ⟨.internalError, true, 1, env.userData⟩
            | .networkError _ => ⟨.internalError, true, 1, env.userData⟩
            | .raiseOther => ⟨.internalError, true, 1, env.userData⟩

/-! ## Helper lemmas -/

/-- Whether a file matches at least one of the given extensions. -/
def matchesAnyExt (f : FSFile) (exts : List String) : Bool :=
  exts.any (fun e => hasExt f e)

lemma mem_matched_aux (files : List FSFile) (g : FSFile) (exts : List String) :
    ∀ acc : List FSFile,
      (g ∈ exts.foldl (fun acc2 ext => acc2 ++ files.filter (fun f => hasExt f ext)) acc ↔
        g ∈ acc ∨ (g ∈ files ∧ ∃ e ∈ exts, hasExt g e = true)) := by
  induction exts with
  | nil => intro acc; simp
  | cons e es ih =>
    intro acc
    rw [List.foldl_cons, ih, List.mem_append, List.mem_filter]
    constructor
    · rintro ((h | h) | ⟨hg, e2, he2, hx⟩)
      · exact Or.inl h
      · exact Or.inr ⟨h.1, e, by simp, h.2⟩
      · exact Or.inr ⟨hg, e2, by simp [he2], hx⟩
    · rintro (h | ⟨hg, e2, he2, hx⟩)
      · exact Or.inl (Or.inl h)
      · rcases List.mem_cons.mp he2 with h2 | h2
        · subst h2; exact Or.inl (Or.inr ⟨hg, hx⟩)
        · exact Or.inr ⟨hg, e2, h2, hx⟩

lemma mem_matchedFiles (files : List FSFile) (exts : List String) (g : FSFile) :
    g ∈ matchedFiles files exts ↔ g ∈ files ∧ matchesAnyExt g exts = true := by
  unfold matchedFiles matchesAnyExt
  rw [mem_matched_aux]
  simp [List.any_eq_true]

lemma foldl_pickNewer_mem (fs : List FSFile) :
    ∀ f : FSFile,
      fs.foldl (fun best g => if best.mtime < g.mtime then g else best) f ∈ f :: fs := by
  induction fs with
  | nil => intro f; simp
  | cons x xs ih =>
    intro f
    rw [List.foldl_cons]
    rcases List.mem_cons.mp (ih (if f.mtime < x.mtime then x else f)) with h1 | h1
    · rw [h1]; split <;> simp
    · simp [List.mem_cons.mpr (Or.inr (List.mem_cons.mpr (Or.inr h1)))]

lemma foldl_pickNewer_ge (fs : List FSFile) :
    ∀ f g : FSFile, g ∈ f :: fs →
      g.mtime ≤ (fs.foldl (fun best x => if best.mtime < x.mtime then x else best) f).mtime := by
  induction fs with
  | nil =>
    intro f g hg
    rw [List.mem_singleton] at hg
    subst hg; simp
  | cons x xs ih =>
    intro f g hg
    rw [List.foldl_cons]
    have hstep : f.mtime ≤ (if f.mtime < x.mtime then x else f).mtime ∧
        x.mtime ≤ (if f.mtime < x.mtime then x else f).mtime := by
      constructor <;> split <;> omega
    have hhead := ih (if f.mtime < x.mtime then x else f)
        (if f.mtime < x.mtime then x else f) (List.mem_cons_self _ _)
    rcases List.mem_cons.mp hg with h1 | h1
    · subst h1; exact le_trans hstep.1 hhead
    · rcases List.mem_cons.mp h1 with h2 | h2
      · subst h2; exact le_trans hstep.2 hhead
      · exact ih (if f.mtime < x.mtime then x else f) g (List.mem_cons.mpr (Or.inr h2))

lemma pyMaxByMtime_spec (l : List FSFile) (f : FSFile) (h : pyMaxByMtime l = some f) :
    f ∈ l ∧ ∀ g ∈ l, g.mtime ≤ f.mtime := by
  cases l with
  | nil => simp [pyMaxByMtime] at h
  | cons a as =>
    have hf : as.foldl (fun best g => if best.mtime < g.mtime then g else best) a = f := by
      simpa [pyMaxByMtime] using h
    subst hf
    exact ⟨foldl_pickNewer_mem as a, fun g hg => foldl_pickNewer_ge as a g hg⟩

lemma pyMaxByMtime_eq_none (l : List FSFile) : pyMaxByMtime l = none ↔ l = [] := by
  cases l <;> simp [pyMaxByMtime]

lemma video_upload_stage_files (env : VideoEnv) (info : Option Info) (cur : List FSFile)
    (heights : List Nat) : (video_upload_stage env info cur heights).files = [] := by
  unfold video_upload_stage
  repeat' split
  all_goals simp [cleanup_download_dir]

lemma video_upload_stage_heights (env : VideoEnv) (info : Option Info) (cur : List FSFile)
    (heights : List Nat) : (video_upload_stage env info cur heights).attemptHeights = heights := by
  unfold video_upload_stage
  repeat' split
  all_goals rfl

lemma video_files_run (env : VideoEnv) (init : List FSFile) :
    (process_video_download env init).files = if env.tgFail 0 then init else [] := by
  unfold process_video_download
  repeat' split
  all_goals simp [cleanup_download_dir, video_upload_stage_files]

lemma video_heights_le (env : VideoEnv) (init : List FSFile) :
    (process_video_download env init).attemptHeights.length ≤ 2 := by
  unfold process_video_download
  repeat' split
  all_goals simp [video_upload_stage_heights]

lemma audio_files_run (env : AudioEnv) (init : List FSFile) :
    (process_audio_download env init).files = if env.tgFail 0 then init else [] := by
  unfold process_audio_download
  repeat' split
  all_goals simp [cleanup_download_dir]

lemma audio_attempts_le (env : AudioEnv) (init : List FSFile) :
    (process_audio_download env init).attempts ≤ 1 := by
  unfold process_audio_download
  repeat' split
  all_goals simp

/-! ## Concrete inputs used by witnesses and counterexamples -/

/-- A metadata record for concrete runs. -/
def wInfo : Info := ⟨"clip", 212⟩

/-- A 720p artifact of exactly the 50 MiB ceiling. -/
def wVfAt : FSFile := ⟨"clip.mp4", 52428800, 10⟩

/-- A 720p artifact over the ceiling. -/
def wVfBig : FSFile := ⟨"clip.mp4", 60000000, 10⟩

/-- A 480p artifact one byte over the ceiling. -/
def wVf480Big : FSFile := ⟨"clip480.mp4", 52428801, 11⟩

/-- A video run whose 720p and 480p artifacts both exceed the ceiling. -/
def wEnvLadder : VideoEnv :=
  ⟨fun _ => false, ⟨some wInfo, none, [wVfBig]⟩, ⟨some wInfo, none, [wVf480Big]⟩, .ok⟩

/-- A video run whose 720p artifact is exactly at the ceiling. -/
def wEnvAt : VideoEnv :=
  ⟨fun _ => false, ⟨some wInfo, none, [wVfAt]⟩, ⟨none, none, []⟩, .ok⟩

/-- An audio artifact one byte over the ceiling. -/
def wAudioFile : FSFile := ⟨"clip.mp3", 52428801, 10⟩

/-- An audio run whose artifact is one byte over the ceiling. -/
def wAudioEnv : AudioEnv := ⟨fun _ => false, ⟨some wInfo, none, [wAudioFile]⟩, .ok⟩

/-- A button-click run whose metadata extraction fails. -/
def wBotEnvNoMeta : BotEnv :=
  ⟨[("vid12345678", "https://www.youtube.com/watch?v=vid12345678")], none, none, .ok⟩

/-- A button-click run with a stored link and a healthy small download. -/
def cexBotEnv : BotEnv :=
  ⟨[("vid12345678", "https://www.youtube.com/watch?v=vid12345678")],
    some ⟨"clip", 212, 1280, 720⟩, some 1000, .ok⟩

/-! ## Claims -/

/-- C1: for every completed job — success, failure, or an exception raised
anywhere inside the pipeline — every file created under the workspace during
the job has been removed when the pipeline exits: the final directory
content is a subset of the initial one, and on every run whose initial
status message succeeds (so the `try/finally` is entered) the directory is
left with zero files, for the video and the audio pipeline alike. -/
theorem workspace_files_removed (env : VideoEnv) (aenv : AudioEnv)
    (init ainit : List FSFile) :
    (process_video_download env init).files ⊆ init ∧
    (env.tgFail 0 = false → (process_video_download env init).files = []) ∧
    (process_audio_download aenv ainit).files ⊆ ainit ∧
    (aenv.tgFail 0 = false → (process_audio_download aenv ainit).files = []) := by
  refine ⟨?_, ?_, ?_, ?_⟩
  · rw [video_files_run]
    split
    · exact List.Subset.refl _
    · exact List.nil_subset _
  · intro h
    simp [video_files_run, h]
  · rw [audio_files_run]
    split
    · exact List.Subset.refl _
    · exact List.nil_subset _
  · intro h
    simp [audio_files_run, h]

/-- C5 counterexample: two distinct main.py jobs (0 and 1) use the very same
physical scratch path — `DOWNLOAD_DIR` is one module-level directory — and a
job's opening `cleanup_download_dir()` deletes files regardless of which job
created them, so the scratch area is not exclusively owned. -/
theorem scratch_path_shared_cex :
    mainWorkspacePath 0 = mainWorkspacePath 1 ∧ (0 : Nat) ≠ 1 ∧
    cleanup_download_dir [⟨"another-jobs-file.mp4", 7, 3⟩] = [] :=
  ⟨rfl, by decide, rfl⟩

/-- C5 amended: in main.py the scratch path is the same fixed directory for
every job — `mainWorkspacePath` is constant — and `cleanup_download_dir`
removes every file of that shared directory, whichever job created it;
jobs are therefore not isolated by path. -/
theorem scratch_path_constant (j1 j2 : Nat) (fs : List FSFile) :
    mainWorkspacePath j1 = mainWorkspacePath j2 ∧ cleanup_download_dir fs = [] :=
  ⟨rfl, rfl⟩

/-- C10: `download_video_sync` and `download_audio_sync` are total at their
interface: every raised exception is caught and the returned pair has
`info = None` exactly when an error message is present, and on any internal
failure (both paths failing, for audio) the pair is `(None, msg)` with a
non-`None` message. -/
theorem download_sync_never_raises (o o1 o2 : AttemptOutcome) :
    ((download_video_sync o).1 = none ↔ ((download_video_sync o).2).isSome = true) ∧
    ((download_audio_sync o1 o2).1 = none ↔ ((download_audio_sync o1 o2).2).isSome = true) ∧
    (attemptFails o = true → ∃ m, download_video_sync o = (none, some m)) ∧
    (attemptFails o1 = true → attemptFails o2 = true →
      ∃ m, download_audio_sync o1 o2 = (none, some m)) := by
  cases o <;> cases o1 <;> cases o2 <;>
    simp [download_video_sync, download_audio_sync, attemptFails]

/-- C2: when the 720p artifact exceeds the ceiling (and the messaging calls
succeed), the pipeline performs exactly one more fetch at 480 — the attempt
ladder is exactly `[720, 480]` — and when the 480p attempt yields no
artifact or one still over the ceiling, the run terminates as `tooLarge`;
no run ever performs more than 2 attempts. -/
theorem video_ladder_two_attempts (env : VideoEnv) (init : List FSFile)
    (i : Info) (vf : FSFile)
    (hTg : ∀ k, env.tgFail k = false)
    (he : env.d720.error = none)
    (hi : env.d720.info = some i)
    (hf : find_downloaded_file env.d720.files videoExtensions = some vf)
    (hbig : size_exceeds_limit vf.size = true) :
    (process_video_download env init).attemptHeights = [720, 480] ∧
    (env.d480.error = none →
      find_downloaded_file env.d480.files videoExtensions = none →
      (process_video_download env init).result = .tooLarge) ∧
    (∀ vf2, env.d480.error = none →
      find_downloaded_file env.d480.files videoExtensions = some vf2 →
      size_exceeds_limit vf2.size = true →
      (process_video_download env init).result = .tooLarge) ∧
    (∀ env2 init2, (process_video_download env2 init2).attemptHeights.length ≤ 2) := by
  refine ⟨?_, ?_, ?_, fun env2 init2 => video_heights_le env2 init2⟩
  · unfold process_video_download
    simp only [hTg, he, hi, hf, hbig, Bool.false_eq_true, if_false, if_true]
    rcases h4 : env.d480.error with _ | m
    · rcases h5 : find_downloaded_file env.d480.files videoExtensions with _ | vf2
      · simp [h4, h5, hTg]
      · by_cases h6 : size_exceeds_limit vf2.size = true
        · simp [h4, h5, h6, hTg]
        · simp [h4, h5, h6, hTg, video_upload_stage_heights]
    · simp [h4, hTg]
  · intro h4 h5
    unfold process_video_download
    simp [hTg, he, hi, hf, hbig, h4, h5]
  · intro vf2 h4 h5 h6
    unfold process_video_download
    simp [hTg, he, hi, hf, hbig, h4, h5, h6]

/-- C2 witness: a run whose 720p artifact is 60000000 bytes and whose 480p
artifact is one byte over the ceiling performs exactly the attempts
`[720, 480]`. -/
theorem video_ladder_two_attempts_witness :
    (process_video_download wEnvLadder []).attemptHeights = [720, 480] :=
  (video_ladder_two_attempts wEnvLadder [] wInfo wVfBig (fun _ => rfl) rfl rfl
    (by decide) (by decide)).1

/-- C3: the size guard is a hard boundary at `MAX_FILE_SIZE_BYTES`
(50 MiB): an artifact of exactly the ceiling is accepted and the pipeline
proceeds to delivery with no second fetch, while every size of at least
ceiling + 1 bytes is rejected by the guard. -/
theorem size_guard_boundary (env : VideoEnv) (init : List FSFile)
    (i : Info) (vf : FSFile)
    (hTg : ∀ k, env.tgFail k = false)
    (he : env.d720.error = none)
    (hi : env.d720.info = some i)
    (hf : find_downloaded_file env.d720.files videoExtensions = some vf)
    (hup : env.upload = .ok)
    (hsz : vf.size = MAX_FILE_SIZE_BYTES) :
    size_exceeds_limit vf.size = false ∧
    (process_video_download env init).result = .delivered ∧
    (process_video_download env init).attemptHeights = [720] ∧
    (∀ n, MAX_FILE_SIZE_BYTES < n → size_exceeds_limit n = true) := by
  have hs : size_exceeds_limit vf.size = false := by
    simp [size_exceeds_limit, hsz]
  refine ⟨hs, ?_, ?_, ?_⟩
  · unfold process_video_download video_upload_stage
    simp [hTg, he, hi, hf, hs, hup]
  · unfold process_video_download video_upload_stage
    simp [hTg, he, hi, hf, hs, hup]
  · intro n hn
    simpa [size_exceeds_limit] using hn

/-- C3 witness: an artifact of exactly 52428800 bytes is delivered. -/
theorem size_guard_boundary_witness :
    (process_video_download wEnvAt []).result = VideoResult.delivered :=
  (size_guard_boundary wEnvAt [] wInfo wVfAt (fun _ => rfl) rfl rfl
    (by decide) rfl rfl).2.1

/-- C8: an audio job whose artifact exceeds the ceiling terminates as
`tooLarge` after its single download — the audio pipeline never performs
more than one fetch attempt, on any run. -/
theorem audio_too_large_terminal (env : AudioEnv) (init : List FSFile)
    (i : Info) (af : FSFile)
    (hTg : ∀ k, env.tgFail k = false)
    (he : env.dl.error = none)
    (hi : env.dl.info = some i)
    (hf : find_downloaded_file env.dl.files audioExtensions = some af)
    (hbig : size_exceeds_limit af.size = true) :
    (process_audio_download env init).result = .tooLarge ∧
    (process_audio_download env init).attempts = 1 ∧
    (∀ env2 init2, (process_audio_download env2 init2).attempts ≤ 1) := by
  refine ⟨?_, ?_, fun env2 init2 => audio_attempts_le env2 init2⟩
  · unfold process_audio_download
    simp [hTg, he, hi, hf, hbig]
  · unfold process_audio_download
    simp [hTg, he, hi, hf, hbig]

/-- C8 witness: an audio artifact one byte over the ceiling ends as
`tooLarge` with exactly one attempt. -/
theorem audio_too_large_terminal_witness :
    (process_audio_download wAudioEnv []).result = AudioResult.tooLarge :=
  (audio_too_large_terminal wAudioEnv [] wInfo wAudioFile (fun _ => rfl) rfl rfl
    (by decide) (by decide)).1

lemma button_click_accepted (env : BotEnv) (data dataType videoId url : String)
    (h1 : parse_callback_data data = some (dataType, videoId))
    (h2 : lookupUserData env.userData videoId = some url) :
    (button_click env data).accepted = true ∧
    (button_click env data).userDataAfter = env.userData := by
  unfold button_click
  simp only [h1, h2]
  rcases env.metadata with _ | info
  · exact ⟨rfl, rfl⟩
  · rcases env.downloadResult with _ | sz
    · exact ⟨rfl, rfl⟩
    · by_cases h3 : 50 * 1024 * 1024 < sz
      · simp [h3]
      · rcases env.upload with _ | _ | m | _ <;> simp [h3]

/-- C4 counterexample: with a stored link for `vid12345678`, a first format
selection is accepted, it leaves `user_data` unchanged, and an identical
second selection submitted against that unchanged state is accepted as well
— two accepted submissions, the duplicate neither rejected nor queued. -/
theorem duplicate_selection_cex :
    (button_click cexBotEnv "v:vid12345678").accepted = true ∧
    (button_click cexBotEnv "v:vid12345678").userDataAfter = cexBotEnv.userData ∧
    (button_click
        { cexBotEnv with
          userData := (button_click cexBotEnv "v:vid12345678").userDataAfter }
        "v:vid12345678").accepted = true := by
  decide

/-- C4 amended: `button_click` performs no duplicate detection. Any
submission whose callback data parses and whose `video_id` is still in
`user_data` is accepted; it never removes the stored link, so a second
identical submission — in particular one arriving before the first pipeline
completes, since no point of the pipeline writes `user_data` — is accepted
too. A selection is rejected only for malformed callback data or a missing
stored link. -/
theorem duplicate_selection_accepted_again (env : BotEnv)
    (data dataType videoId url : String)
    (h1 : parse_callback_data data = some (dataType, videoId))
    (h2 : lookupUserData env.userData videoId = some url) :
    (button_click env data).accepted = true ∧
    (button_click env data).userDataAfter = env.userData ∧
    (button_click
        { env with userData := (button_click env data).userDataAfter }
        data).accepted = true := by
  obtain ⟨ha, hu⟩ := button_click_accepted env data dataType videoId url h1 h2
  refine ⟨ha, hu, ?_⟩
  rw [hu]
  exact ha

/-- C4 amended witness: both of two consecutive identical selections are
accepted in the concrete run. -/
theorem duplicate_selection_accepted_again_witness :
    (button_click wBotEnvNoMeta "a:vid12345678").accepted = true :=
  (duplicate_selection_accepted_again wBotEnvNoMeta "a:vid12345678" "a" "vid12345678"
    "https://www.youtube.com/watch?v=vid12345678" (by decide) (by decide)).1

/-- C6: when metadata extraction fails (`get_video_info` returns `None`,
e.g. for a private or restricted item), the job terminates in the failed
"Could not get video information" state with zero `download_media`
invocations: the fetch executor is never invoked. -/
theorem metadata_failure_no_fetch (env : BotEnv) (data dataType videoId url : String)
    (h1 : parse_callback_data data = some (dataType, videoId))
    (h2 : lookupUserData env.userData videoId = some url)
    (h3 : env.metadata = none) :
    (button_click env data).result = .infoFailed ∧
    (button_click env data).downloadCalls = 0 := by
  unfold button_click
  simp [h1, h2, h3]

/-- C6 witness: the concrete restricted-item run performs zero downloads. -/
theorem metadata_failure_no_fetch_witness :
    (button_click wBotEnvNoMeta "v:vid12345678").downloadCalls = 0 :=
  (metadata_failure_no_fetch wBotEnvNoMeta "v:vid12345678" "v" "vid12345678"
    "https://www.youtube.com/watch?v=vid12345678" (by decide) (by decide) rfl).2

/-- C7: when the preferred FFmpeg codec path of an audio job raises, exactly
one fallback attempt without transcoding runs (two yt-dlp invocations in
all), an error is reported exactly when that fallback also fails, and when
the fallback succeeds the job has its info dict and no error. -/
theorem audio_fallback_exactly_once (o1 o2 : AttemptOutcome)
    (h : attemptFails o1 = true) :
    download_audio_sync_attempts o1 o2 = 2 ∧
    ((download_audio_sync o1 o2).2).isSome = attemptFails o2 ∧
    (attemptFails o2 = false → ∃ i, download_audio_sync o1 o2 = (some i, none)) := by
  cases o1 <;> cases o2 <;>
    simp_all [download_audio_sync, download_audio_sync_attempts, attemptFails]

/-- C7 witness: FFmpeg path raising, fallback succeeding — exactly two
invocations. -/
theorem audio_fallback_exactly_once_witness :
    download_audio_sync_attempts (AttemptOutcome.raiseOther "ffmpeg missing")
      (AttemptOutcome.ok wInfo) = 2 :=
  (audio_fallback_exactly_once (AttemptOutcome.raiseOther "ffmpeg missing")
    (AttemptOutcome.ok wInfo) rfl).1

/-- C9 counterexample: with the expected output `vid.mp4` absent and two
matching files in the workspace, bot.py's `download_media` fallback resolves
the FIRST listed entry (mtime 5), not the newest matching file (mtime 9)
that the claim prescribes and that main.py's `find_downloaded_file`
selects. -/
theorem resolve_not_newest_cex :
    download_media_resolve
        [⟨"vidOld.mp4", 1000, 5⟩, ⟨"vidNew.mp4", 1000, 9⟩] "vid" "vid.mp4"
      = some ⟨"vidOld.mp4", 1000, 5⟩ ∧
    find_downloaded_file
        [⟨"vidOld.mp4", 1000, 5⟩, ⟨"vidNew.mp4", 1000, 9⟩] ["mp3", "mp4"]
      = some ⟨"vidNew.mp4", 1000, 9⟩ ∧
    (5 : Nat) < 9 := by
  decide

/-- C9 amended: main.py's `find_downloaded_file` does resolve the artifact
as claimed — any file it returns is a workspace file matching one of the
expected extensions whose modification time is greatest among all matching
files, and it returns `None` exactly when no file matches any expected
extension. (bot.py's fallback instead takes the first listed entry whose
name starts with the video id and ends in `.mp3`/`.mp4`.) -/
theorem resolve_newest_matching (files : List FSFile) (exts : List String) (f : FSFile)
    (h : find_downloaded_file files exts = some f) :
    (f ∈ files ∧ matchesAnyExt f exts = true ∧
      ∀ g ∈ files, matchesAnyExt g exts = true → g.mtime ≤ f.mtime) ∧
    (∀ (files2 : List FSFile) (exts2 : List String),
      find_downloaded_file files2 exts2 = none ↔
        ∀ g ∈ files2, matchesAnyExt g exts2 = false) := by
  constructor
  · unfold find_downloaded_file at h
    obtain ⟨hmem, hmax⟩ := pyMaxByMtime_spec _ _ h
    rw [mem_matchedFiles] at hmem
    refine ⟨hmem.1, hmem.2, ?_⟩
    intro g hg hany
    exact hmax g ((mem_matchedFiles files exts g).mpr ⟨hg, hany⟩)
  · intro files2 exts2
    unfold find_downloaded_file
    rw [pyMaxByMtime_eq_none, List.eq_nil_iff_forall_not_mem]
    constructor
    · intro hnone g hgf
      have hn := hnone g
      rw [mem_matchedFiles] at hn
      by_cases hany : matchesAnyExt g exts2 = true
      · exact absurd ⟨hgf, hany⟩ hn
      · simpa using hany
    · intro hall g hmem
      rw [mem_matchedFiles] at hmem
      rw [hall g hmem.1] at hmem
      exact Bool.false_ne_true hmem.2

/-- C9 amended witness: on a concrete two-file workspace the returned file
is a member of the workspace. -/
theorem resolve_newest_matching_witness :
    (⟨"b.mp4", 1, 9⟩ : FSFile) ∈ [(⟨"a.mp4", 1, 5⟩ : FSFile), ⟨"b.mp4", 1, 9⟩] :=
  ((resolve_newest_matching [⟨"a.mp4", 1, 5⟩, ⟨"b.mp4", 1, 9⟩] videoExtensions
    ⟨"b.mp4", 1, 9⟩ (by decide)).1).1

end YtBot
